import Mathlib

/-!
Shallow embedding of the saltext-azurerm plugin collection, covering the
utility helpers (`paged_object_to_list`, `create_object_model`,
`compare_list_of_dicts` in `utils/azurerm.py`), the availability-set
execution module (`modules/azurerm_compute_availability_set.py`), the
availability-set state module (`states/azurerm_compute_availability_set.py`)
and the cloud driver's listing helpers (`avail_images`, `_get_node_info` in
`clouds/azurerm.py`).

Python values are modelled by the inductive type `PyVal`; Python `dict`s are
modelled as insertion-ordered association lists (`PyDict`), so dictionary
equality here is order-sensitive structural equality (the claims under study
never depend on key-order-insensitive dict equality).
-/

/-- Python values as they occur in this code base: `None`, booleans, integers,
strings, lists, dictionaries with string keys, and constructed SDK model
objects (class name plus the keyword arguments passed to the constructor). -/
inductive PyVal where
  | none : PyVal
  | bool : Bool → PyVal
  | int : Int → PyVal
  | str : String → PyVal
  | list : List PyVal → PyVal
  | dict : List (String × PyVal) → PyVal
  | obj : String → List (String × PyVal) → PyVal
deriving Repr, Inhabited

/-- Python `==` on embedded values (structural; dictionaries compare by their
insertion order, which suffices for every comparison exercised here). -/
def pyBeq : PyVal → PyVal → Bool
  | .none, .none => true
  | .bool a, .bool b => a == b
  | .int a, .int b => a == b
  | .str a, .str b => a == b
  | .list a, .list b => pyBeqList a b
  | .dict a, .dict b => pyBeqPairs a b
  | .obj n a, .obj m b => n == m && pyBeqPairs a b
  | _, _ => false
where
  pyBeqList : List PyVal → List PyVal → Bool
    | [], [] => true
    | a :: as, b :: bs => pyBeq a b && pyBeqList as bs
    | _, _ => false
  pyBeqPairs : List (String × PyVal) → List (String × PyVal) → Bool
    | [], [] => true
    | (k, v) :: as, (l, w) :: bs => k == l && pyBeq v w && pyBeqPairs as bs
    | _, _ => false

instance : BEq PyVal := ⟨pyBeq⟩

/-- A Python dictionary with string keys: an insertion-ordered association list. -/
abbrev PyDict := List (String × PyVal)

namespace PyVal

/-- `d.get(k)`: first binding of `k`, or `none` if absent. -/
def lookup? (d : PyDict) (k : String) : Option PyVal :=
  match d with
  | [] => Option.none
  | (k', v) :: rest => if k' = k then some v else lookup? rest k

/-- `d.get(k, dflt)`. -/
def lookupD (d : PyDict) (k : String) (dflt : PyVal) : PyVal :=
  (lookup? d k).getD dflt

/-- `k in d` for a Python dictionary. -/
def hasKey (d : PyDict) (k : String) : Bool :=
  (lookup? d k).isSome

/-- `d[k] = v`: replace the value in place when the key exists, append otherwise. -/
def setKey (d : PyDict) (k : String) (v : PyVal) : PyDict :=
  match d with
  | [] => [(k, v)]
  | (k', v') :: rest => if k' = k then (k', v) :: rest else (k', v') :: setKey rest k v

/-- `d.update(new)`: merge `new` into `d`, later keys overwriting. -/
def dictUpdate (d new : PyDict) : PyDict :=
  new.foldl (fun acc kv => setKey acc kv.1 kv.2) d

/-- The keys of a dictionary, in order. -/
def keysOf (d : PyDict) : List String := d.map Prod.fst

/-- View a value as a list, with `[]` for non-lists (callers only apply this to lists). -/
def asList : PyVal → List PyVal
  | .list l => l
  | _ => []

/-- View a value as a dictionary, with `{}` for non-dictionaries. -/
def asDict : PyVal → PyDict
  | .dict d => d
  | _ => []

/-- View a value as a string, with `""` for non-strings. -/
def asStr : PyVal → String
  | .str s => s
  | _ => ""

end PyVal

open PyVal

/-- Python `str.lower()` (ASCII case folding, written over the character
list so that it evaluates by kernel reduction). -/
def pyLower (s : String) : String := String.mk (s.toList.map Char.toLower)

/-- `s.split("/")[-1]`: the last `/`-separated segment of a string (the
characters after the last `/`). -/
def lastSegment (s : String) : String :=
  String.mk ((s.toList.reverse.takeWhile (fun c => !(c == '/'))).reverse)

/-- Insert a string into an ascending list, keeping order (helper for `sortStrings`). -/
def insertAsc (s : String) : List String → List String
  | [] => [s]
  | t :: ts => if s ≤ t then s :: t :: ts else t :: insertAsc s ts

/-- Python `sorted` on a list of strings (ascending lexicographic order). -/
def sortStrings (l : List String) : List String :=
  l.foldr insertAsc []

/-!
`create_object_model` (utils/azurerm.py, lines 213-258).  The function
reflects over the target SDK model class's `_attribute_map` — a table from
attribute name to wire type string — and recursively assembles the keyword
set passed to the model constructor.  The family of SDK model classes is
modelled by an environment mapping each class name to `some` attribute map
when the class exposes `_attribute_map`, and `none` otherwise; a constructed
model object is `PyVal.obj className ctorKwargs`.  Recursion depth is fuelled;
both the code-side and the spec-side definition bottom out identically, so the
refinement theorem quantifies over all fuels.
-/

/-- The `_attribute_map` tables of the SDK model classes. -/
abbrev AttrEnv := String → Option (List (String × String))

/-- `ty[0]` on a wire type string (NUL when out of range; wire types are
never empty in practice, and NUL is neither uppercase nor a bracket). -/
def firstChar (ty : String) : Char := ty.toList.headD '\x00'

/-- `ty[1]` on a wire type string (NUL when out of range). -/
def secondChar (ty : String) : Char := (ty.toList.drop 1).headD '\x00'

/-- `ty[0].isupper()` on a wire type string. -/
def firstCharUpper (ty : String) : Bool := (firstChar ty).isUpper

/-- `ty[0] == c` on a wire type string. -/
def firstCharIs (ty : String) (c : Char) : Bool := firstChar ty == c

/-- `ty[1].isupper()` on a wire type string. -/
def secondCharUpper (ty : String) : Bool := (secondChar ty).isUpper

/-- `ty[1] == c` on a wire type string. -/
def secondCharIs (ty : String) (c : Char) : Bool := secondChar ty == c

/-- `ty[ty.index("[") + 1 : ty.rindex("]")]`: the element type of a list wire
type such as `[SubResource]` or `[str]`. -/
def elemTypeName (ty : String) : String :=
  let cs := ty.toList
  let i := cs.findIdx (· == '[') + 1
  let j := cs.length - 1 - cs.reverse.findIdx (· == ']')
  String.mk ((cs.drop i).take (j - i))

/-- Is the value a Python dict? (`isinstance(param, dict)`). -/
def PyVal.isDict : PyVal → Bool
  | .dict _ => true
  | _ => false

/-- Is the value a Python list? (`isinstance(param, list)`). -/
def PyVal.isList : PyVal → Bool
  | .list _ => true
  | _ => false

/-- One iteration of the `for attr, items in Model._attribute_map.items()`
loop of `create_object_model`: `None` when the attribute is skipped
(`kwargs.get(attr)` is `None`), otherwise the binding added to
`object_kwargs`.  `build` stands for the recursive call
`create_object_model(module_name, ·, **·)`. -/
def attrLoopBody (build : String → PyDict → PyVal) (kwargs : PyDict)
    (entry : String × String) : Option (String × PyVal) :=
  let attr := entry.1
  let ty := entry.2
  match lookupD kwargs attr PyVal.none with
  | PyVal.none => Option.none
  | param =>
    if firstCharUpper ty && param.isDict then
      some (attr, build ty param.asDict)
    else if firstCharIs ty '{' && param.isDict then
      some (attr, param)
    else if firstCharIs ty '[' && param.isList then
      some (attr, PyVal.list (param.asList.filterMap (fun listItem =>
        if secondCharUpper ty && listItem.isDict then
          some (build (elemTypeName ty) listItem.asDict)
        else if secondCharIs ty '{' && listItem.isDict then
          some listItem
        else if !secondCharUpper ty && !secondCharIs ty '{' then
          some listItem
        else Option.none)))
    else
      some (attr, param)

/-- `create_object_model(module_name, object_name, **kwargs)`: build the model
object from the incoming keyword arguments by iterating the class's
`_attribute_map` (classes without an `_attribute_map` are constructed with no
keyword arguments). -/
def create_object_model (env : AttrEnv) : Nat → String → PyDict → PyVal
  | 0, objectName, _ => PyVal.obj objectName []
  | fuel + 1, objectName, kwargs =>
    match env objectName with
    | Option.none => PyVal.obj objectName []
    | some attrMap =>
      PyVal.obj objectName (attrMap.foldl
        (fun acc entry =>
          acc ++ (attrLoopBody (create_object_model env fuel) kwargs entry).toList) [])

/-- Spec-side reading of one attribute, following the claim's words: for each
attribute whose incoming value is not `None`, recursively build a nested model
when the wire type begins with an uppercase letter and the value is a dict;
pass the value through unchanged when the wire type begins with `{`; when the
wire type begins with `[` and the value is a list, recursively build each dict
element whose element wire type is a model, pass dict elements through for map
element types, pass scalar elements through unchanged (and omit anything
else); and pass the value through unchanged otherwise.  Attributes absent
from the kwargs or set to `None` yield no binding. -/
def specAttrValue (build : String → PyDict → PyVal) (kwargs : PyDict)
    (entry : String × String) : Option (String × PyVal) :=
  match lookup? kwargs entry.1 with
  | Option.none => Option.none
  | some PyVal.none => Option.none
  | some v =>
    if firstCharUpper entry.2 && v.isDict then
      some (entry.1, build entry.2 v.asDict)
    else if firstCharIs entry.2 '{' then
      some (entry.1, v)
    else if firstCharIs entry.2 '[' && v.isList then
      some (entry.1, PyVal.list (v.asList.filterMap (fun listItem =>
        if secondCharUpper entry.2 then
          (if listItem.isDict then
            some (build (elemTypeName entry.2) listItem.asDict)
          else Option.none)
        else if secondCharIs entry.2 '{' then
          (if listItem.isDict then some listItem else Option.none)
        else some listItem)))
    else
      some (entry.1, v)

/-- Spec-side object builder, following the claim's description of
`create_object_model`: the constructor keyword set is the attribute map
filtered and transformed attribute by attribute. -/
def specObjectModel (env : AttrEnv) : Nat → String → PyDict → PyVal
  | 0, objectName, _ => PyVal.obj objectName []
  | fuel + 1, objectName, kwargs =>
    match env objectName with
    | Option.none => PyVal.obj objectName []
    | some attrMap =>
      PyVal.obj objectName
        (attrMap.filterMap (specAttrValue (specObjectModel env fuel) kwargs))

/-!
`compare_list_of_dicts` (utils/azurerm.py, lines 261-308).  Python's
`sorted(config, key=itemgetter("name"))` raises `TypeError` when an entry is
not subscriptable by `"name"` (caught and reported as the "list of
dictionaries" comment) and `KeyError` when a dictionary lacks the `"name"`
key (caught and reported as the "name key" comment); key extraction runs
before any comparison, so extraction errors win.  The sort itself is a stable
comparison sort over Python `<` on the name values; a comparison between
incomparable values raises `TypeError`, folded into the same comment, and a
list with fewer than two entries makes no comparison at all.  CPython's
Timsort performs a different sequence of comparisons, but the two agree on
whether a `TypeError` is raised for names within Python's comparability
classes (numbers, strings, recursively comparable lists) — in particular on
every list with fewer than two entries or with homogeneous name values.
`remote.get(key, {}).get("id",
"")` is modelled with dictionary/string views; a non-dict remote value at a
`convert_id_to_name` key (which would raise `AttributeError` uncaught in
Python) is outside the domain of the theorems below.
-/

/-- Outcome of `sorted(config, key=itemgetter("name"))` when it raises. -/
inductive SortErr where
  | typeErr : SortErr
  | keyErr : SortErr
deriving DecidableEq, Repr

/-- Key extraction pass of `sorted(..., key=itemgetter("name"))`: each entry
must be a dictionary (`TypeError` otherwise) containing `"name"` (`KeyError`
otherwise). -/
def extractNames : List PyVal → Except SortErr (List (PyVal × PyDict))
  | [] => Except.ok []
  | PyVal.dict d :: rest =>
    match lookup? d "name" with
    | some nv => (extractNames rest).map (fun tail => (nv, d) :: tail)
    | Option.none => Except.error SortErr.keyErr
  | _ :: _ => Except.error SortErr.typeErr

/-- Python `<` on the values that can appear as sort keys: `some r` when the
comparison is defined with result `r`, `none` when it raises `TypeError`.
Integers and booleans compare numerically (a Python bool is an int), strings
lexicographically, lists lexicographically (elements are first compared for
equality — which never raises — and the first unequal pair is ordered, which
may itself raise); `None`, dictionaries, SDK objects and cross-kind pairs do
not compare. -/
def pyLt? : PyVal → PyVal → Option Bool
  | PyVal.int a, PyVal.int b => some (decide (a < b))
  | PyVal.int a, PyVal.bool b => some (decide (a < (if b then 1 else 0)))
  | PyVal.bool a, PyVal.int b => some (decide ((if a then (1 : Int) else 0) < b))
  | PyVal.bool a, PyVal.bool b =>
    some (decide ((if a then (1 : Int) else 0) < (if b then 1 else 0)))
  | PyVal.str a, PyVal.str b => some (decide (a < b))
  | PyVal.list a, PyVal.list b => pyLtList? a b
  | _, _ => Option.none
where
  pyLtList? : List PyVal → List PyVal → Option Bool
    | [], [] => some false
    | [], _ :: _ => some true
    | _ :: _, [] => some false
    | a :: as, b :: bs =>
      if pyBeq a b then pyLtList? as bs else pyLt? a b

/-- Stable insertion into an ascending list using Python `<` on the name
keys (the new, originally-earlier element goes before the first existing
element it is not greater than), raising `TypeError` on an undefined
comparison. -/
def insertSortedName (p : PyVal × PyDict) :
    List (PyVal × PyDict) → Except SortErr (List (PyVal × PyDict))
  | [] => Except.ok [p]
  | q :: qs =>
    match pyLt? q.1 p.1 with
    | Option.none => Except.error SortErr.typeErr
    | some true => (insertSortedName p qs).map (fun r => q :: r)
    | some false => Except.ok (p :: q :: qs)

/-- Stable ascending sort of the named configurations: a singleton or empty
list makes no comparison and never raises. -/
def sortByName : List (PyVal × PyDict) → Except SortErr (List (PyVal × PyDict))
  | [] => Except.ok []
  | p :: rest => do
    let r ← sortByName rest
    insertSortedName p r

/-- `sorted(config, key=itemgetter("name"))`: all keys are extracted first
(`TypeError` for a non-dict entry, `KeyError` for a missing name), then the
comparison sort runs (`TypeError` on an undefined comparison; both
`TypeError`s land in the same `except` clause). -/
def sortConfigs (entries : List PyVal) :
    Except SortErr (List (PyVal × PyDict)) := do
  let pairs ← extractNames entries
  sortByName pairs

/-- The comment attached to each sorting failure. -/
def sortErrComment : SortErr → PyVal
  | SortErr.typeErr => PyVal.str "configurations must be provided as a list of dictionaries!"
  | SortErr.keyErr => PyVal.str "configuration dictionaries must contain the \"name\" key!"

/-- Lowercase a string value, leave every other value unchanged (the
`isinstance(val, str)`-guarded `.lower()` calls). -/
def lowerIfStr : PyVal → PyVal
  | PyVal.str s => PyVal.str (pyLower s)
  | v => v

/-- `remote_configs[idx].get(key, {}).get("id", "").split("/")[-1]`. -/
def convertRemoteVal (remoteD : PyDict) (key : String) : String :=
  lastSegment ((lookupD (lookupD remoteD key (PyVal.dict [])).asDict "id" (PyVal.str "")).asStr)

/-- The inner `for key in val` loop body test of `compare_list_of_dicts`:
does the local value at this key differ from the remote one? -/
def entryMismatch (convert : List String) (remoteD : PyDict)
    (kv : String × PyVal) : Bool :=
  if convert.contains kv.1 then
    !pyBeq kv.2 (PyVal.str (convertRemoteVal remoteD kv.1))
  else
    !pyBeq (lowerIfStr kv.2) (lowerIfStr (lookupD remoteD kv.1 PyVal.none))

/-- The double loop of `compare_list_of_dicts`: some key of some local
configuration differs from the corresponding remote value. -/
def mismatchAny (convert : List String) (locals remotes : List (PyVal × PyDict)) : Bool :=
  (locals.zip remotes).any (fun pr => pr.1.2.any (entryMismatch convert pr.2.2))

/-- `compare_list_of_dicts(old, new, convert_id_to_name)`:
compare lists of dictionaries representing Azure objects, comparing only keys
found in the `new` dictionaries; `old` comes from the Azure API and is always
a list. -/
def compare_list_of_dicts (old : List PyVal) (new : PyVal)
    (convert : List String) : PyDict :=
  match new with
  | PyVal.list newL =>
    if newL.length ≠ old.length then
      [("changes", PyVal.dict [("old", PyVal.list old), ("new", new)])]
    else
      match sortConfigs newL, sortConfigs old with
      | Except.error e, _ => [("comment", sortErrComment e)]
      | Except.ok _, Except.error e => [("comment", sortErrComment e)]
      | Except.ok locals, Except.ok remotes =>
        if mismatchAny convert locals remotes then
          [("changes", PyVal.dict
            [("old", PyVal.list (remotes.map (fun p => PyVal.dict p.2))),
             ("new", PyVal.list (locals.map (fun p => PyVal.dict p.2)))])]
        else []
  | _ => [("comment", PyVal.str "must be provided as a list of dictionaries!")]

/-- Spec-side reading of one key comparison, following the claim's words:
keys listed in `convert_id_to_name` compare the new value against the last
`/`-separated segment of the old value's `id` field; otherwise values compare
equal with string values compared case-insensitively. -/
def specKeyMatches (convert : List String) (remoteD : PyDict)
    (key : String) (newVal : PyVal) : Bool :=
  if convert.contains key then
    pyBeq newVal (PyVal.str (lastSegment
      ((lookupD (lookupD remoteD key (PyVal.dict [])).asDict "id" (PyVal.str "")).asStr)))
  else
    pyBeq (lowerIfStr newVal) (lowerIfStr (lookupD remoteD key PyVal.none))

/-- Spec-side reading of the claim's match condition: after sorting both
lists by the `name` key, every key present in each new dictionary compares
equal to the corresponding old value. -/
def specAllMatch (convert : List String)
    (locals remotes : List (PyVal × PyDict)) : Bool :=
  (locals.zip remotes).all (fun pr =>
    pr.1.2.all (fun kv => specKeyMatches convert pr.2.2 kv.1 kv.2))

/-!
`paged_object_to_list` (utils/azurerm.py, lines 198-210).  A paged object is
an iterator of pages; the loop calls `next` until `StopIteration` and collects
`page.as_dict()` for every page yielded.  The iterator is modelled by the list
of pages it yields before `StopIteration`, and `as_dict` by a function
parameter `asDictF`.
-/

/-- The `while True: ... next ... append` loop of `paged_object_to_list`,
with the accumulator `paged_return` made explicit. -/
def pagedLoop {Page : Type} (asDictF : Page → PyDict) :
    List Page → List PyDict → List PyDict
  | [], acc => acc
  | p :: rest, acc => pagedLoop asDictF rest (acc ++ [asDictF p])

/-- `paged_object_to_list(paged_object)`: extract all pages as dictionaries. -/
def paged_object_to_list {Page : Type} (asDictF : Page → PyDict)
    (pages : List Page) : List PyDict :=
  pagedLoop asDictF pages []

/-!
Execution module `modules/azurerm_compute_availability_set.py`.  The SDK call
sites are modelled by their outcome: either the `as_dict()` form of the
response or one of the exceptions the module's `try` blocks are written
against.  `ResourceNotFoundError` subclasses `HttpResponseError` in
`azure.core.exceptions`, so an `except HttpResponseError` clause catches both.
-/

/-- The SDK exceptions named by the execution module's `except` clauses:
`HttpResponseError`, its subclass `ResourceNotFoundError`, and
`SerializationError`, each carrying `str(exc)`. -/
inductive AzExc where
  | http : String → AzExc
  | notFound : String → AzExc
  | serialization : String → AzExc
deriving DecidableEq, Repr

/-- `str(exc)`. -/
def AzExc.msg : AzExc → String
  | .http m => m
  | .notFound m => m
  | .serialization m => m

/-- `isinstance(exc, HttpResponseError)`: true for `ResourceNotFoundError`
too, since it subclasses `HttpResponseError`. -/
def AzExc.isHttpResponseError : AzExc → Bool
  | .http _ => true
  | .notFound _ => true
  | .serialization _ => false

/-- `azurerm_compute_availability_set.get(name, resource_group, **kwargs)`
(module lines 155-185): on success the availability set's `as_dict()` form;
`HttpResponseError` and `ResourceNotFoundError` are caught and converted to an
error mapping; any other exception would propagate (the wrapped
`availability_sets.get` raises only those two). -/
def avset_get (sdk : Except AzExc PyDict) : Except AzExc PyDict :=
  match sdk with
  | Except.ok d => Except.ok d
  | Except.error e =>
    if e.isHttpResponseError then Except.ok [("error", PyVal.str e.msg)]
    else Except.error e

/-- `azurerm_compute_availability_set.create_or_update(name, resource_group,
**kwargs)` (module lines 59-120).  `hasLocation` is `"location" in kwargs`;
`rgProps` the result of `azurerm_resource.resource_group_get`; `modelBuild`
the outcome of `create_object_model` (`TypeError` message on failure; the
VM-name-to-ID rewrite only reshapes the kwargs passed on and is subsumed in
the SDK outcome); `sdk` the `availability_sets.create_or_update` outcome.
Returns `False` when the location cannot be determined, an error mapping on
every caught exception, and the `as_dict()` result on success. -/
def avset_create_or_update (hasLocation : Bool) (rgProps : PyDict)
    (modelBuild : Except String Unit) (sdk : Except AzExc PyDict) : PyVal :=
  if !hasLocation && hasKey rgProps "error" then PyVal.bool false
  else
    match modelBuild with
    | Except.error exc =>
      PyVal.dict [("error", PyVal.str ("The object model could not be built. (" ++ exc ++ ")"))]
    | Except.ok _ =>
      match sdk with
      | Except.ok d => PyVal.dict d
      | Except.error (AzExc.http m) => PyVal.dict [("error", PyVal.str m)]
      | Except.error (AzExc.notFound m) => PyVal.dict [("error", PyVal.str m)]
      | Except.error (AzExc.serialization m) =>
        PyVal.dict [("error", PyVal.str ("The object model could not be parsed. (" ++ m ++ ")"))]

/-!
State module `states/azurerm_compute_availability_set.py`.  The runtime
context is passed explicitly: `testMode` is `__opts__["test"]`; `getResult`
the value returned by `azurerm_compute_availability_set.get`; `createResult`
and `deleteResult` the values `create_or_update`/`delete` would return if
invoked; `deepDiff` stands for `salt.utils.dictdiffer.deep_diff` (a dependency
outside this repository), passed as a function parameter.  Each state function
returns the `ret` dictionary paired with the list of mutating
execution-module operations it invoked.
-/

/-- The `ret` dictionary of a state function: initialized at entry with the
four fixed keys and only ever updated at those keys. -/
def mkRet (name : String) (result : PyVal) (comment : String)
    (changes : PyDict) : PyDict :=
  [("name", PyVal.str name), ("result", result),
   ("comment", PyVal.str comment), ("changes", PyVal.dict changes)]

/-- Python `str.capitalize()`: first character uppercased, the rest lowercased. -/
def pyCapitalize (s : String) : String :=
  match s.toList with
  | [] => ""
  | c :: cs => String.mk (c.toUpper :: cs.map Char.toLower)

/-- Python truthiness of the values handled by the state functions. -/
def pyTruthy : PyVal → Bool
  | PyVal.none => false
  | PyVal.bool b => b
  | PyVal.int n => !(n == 0)
  | PyVal.str s => !(s == "")
  | PyVal.list l => !l.isEmpty
  | PyVal.dict d => !d.isEmpty
  | PyVal.obj _ _ => true

/-- Model of `salt.utils.dictdiffer.deep_diff` (a dependency outside this
repository): empty when the two mappings are equal, an old/new pair otherwise
(the state claims rely only on equal mappings producing an empty diff). -/
def deepDiffModel (old new : PyDict) : PyDict :=
  if pyBeq (PyVal.dict old) (PyVal.dict new) then []
  else [("old", PyVal.dict old), ("new", PyVal.dict new)]

/-- An optional value as the Python value the state records in its changes
dictionary (`None` when the parameter was not supplied). -/
def optPy (o : Option PyVal) : PyVal := o.getD PyVal.none

/-- An optional integer parameter as a Python value. -/
def optIntPy : Option Int → PyVal
  | some n => PyVal.int n
  | Option.none => PyVal.none

/-- An optional dictionary parameter as a Python value. -/
def optDictPy : Option PyDict → PyVal
  | some d => PyVal.dict d
  | Option.none => PyVal.none

/-- The tail of `present` shared by both branches once control reaches the
`create_or_update` call (state lines 222-243): report creation or failure,
keeping the accumulated changes. -/
def avsCreateCall (name : String) (createResult : PyDict)
    (changes : PyDict) : PyDict × List String :=
  if !hasKey createResult "error" then
    (mkRet name (PyVal.bool true)
      ("Availability set " ++ name ++ " has been created.") changes,
     ["create_or_update"])
  else
    (mkRet name (PyVal.bool false)
      ("Failed to create availability set " ++ name ++ "! (" ++
        (lookupD createResult "error" PyVal.none).asStr ++ ")") changes,
     ["create_or_update"])

/-- The tail of the `"error" not in aset` branch of `present` (state lines
190-201 and onward): already-present short-circuit, test-mode report, or fall
through to `create_or_update`. -/
def avsExistingTail (name : String) (testMode : Bool) (createResult : PyDict)
    (changes : PyDict) : PyDict × List String :=
  if changes.isEmpty then
    (mkRet name (PyVal.bool true)
      ("Availability set " ++ name ++ " is already present.") [], [])
  else if testMode then
    (mkRet name PyVal.none
      ("Availability set " ++ name ++ " would be updated.") changes, [])
  else avsCreateCall name createResult changes

/-- `present(name, resource_group, tags, platform_update_domain_count,
platform_fault_domain_count, virtual_machines, sku, connection_auth)` (state
lines 76-243).  The faulty generator filter of the source —
`for vm in aset_vms if "id" in aset_vms`, which tests membership of the
string `"id"` in the whole list instead of in each VM dictionary — is
reproduced as written. -/
def present (name _resource_group : String) (tags : Option PyDict)
    (pudc pfdc : Option Int) (virtual_machines : Option PyVal)
    (sku : Option String) (connection_auth : PyVal) (testMode : Bool)
    (getResult : PyDict) (createResult : PyDict)
    (deepDiff : PyDict → PyDict → PyDict) : PyDict × List String :=
  if !connection_auth.isDict then
    (mkRet name (PyVal.bool false)
      "Connection information must be specified via connection_auth dictionary!" [], [])
  else
    let skuDict : Option PyDict :=
      match sku with
      | some s =>
        if pyTruthy (PyVal.str s) then some [("name", PyVal.str (pyCapitalize s))]
        else Option.none
      | Option.none => Option.none
    let skuPy : PyVal :=
      match skuDict with
      | some d => PyVal.dict d
      | Option.none =>
        match sku with
        | some s => PyVal.str s
        | Option.none => PyVal.none
    let aset := getResult
    if !hasKey aset "error" then
      let tagChanges := deepDiff (lookupD aset "tags" (PyVal.dict [])).asDict (tags.getD [])
      let ch1 : PyDict :=
        if !tagChanges.isEmpty then [("tags", PyVal.dict tagChanges)] else []
      let ch2 := ch1 ++
        (match pudc with
         | some n =>
           if pyTruthy (PyVal.int n) &&
               !pyBeq (PyVal.int n) (lookupD aset "platform_update_domain_count" PyVal.none) then
             [("platform_update_domain_count", PyVal.dict
               [("old", lookupD aset "platform_update_domain_count" PyVal.none),
                ("new", PyVal.int n)])]
           else []
         | Option.none => [])
      let ch3 := ch2 ++
        (match pfdc with
         | some n =>
           if pyTruthy (PyVal.int n) &&
               !pyBeq (PyVal.int n) (lookupD aset "platform_fault_domain_count" PyVal.none) then
             [("platform_fault_domain_count", PyVal.dict
               [("old", lookupD aset "platform_fault_domain_count" PyVal.none),
                ("new", PyVal.int n)])]
           else []
         | Option.none => [])
      let ch4 := ch3 ++
        (match skuDict with
         | some sd =>
           if !pyBeq (lookupD sd "name" PyVal.none)
               (lookupD (lookupD aset "sku" (PyVal.dict [])).asDict "name" PyVal.none) then
             [("sku", PyVal.dict
               [("old", lookupD aset "sku" PyVal.none), ("new", PyVal.dict sd)])]
           else []
         | Option.none => [])
      match virtual_machines with
      | some vmv =>
        if pyTruthy vmv then
          if !vmv.isList then
            (mkRet name (PyVal.bool false)
              "Virtual machines must be supplied as a list!" ch4, [])
          else
            let asetVms := (lookupD aset "virtual_machines" (PyVal.list [])).asList
            let remoteVms := sortStrings
              (if asetVms.contains (PyVal.str "id") then
                asetVms.map (fun vm => pyLower (lastSegment ((lookupD vm.asDict "id" PyVal.none).asStr)))
              else [])
            let localVms := sortStrings (vmv.asList.map (fun vm => pyLower vm.asStr))
            let ch5 :=
              if localVms ≠ remoteVms then
                ch4 ++ [("virtual_machines", PyVal.dict
                  [("old", PyVal.list asetVms), ("new", vmv)])]
              else ch4
            avsExistingTail name testMode createResult ch5
        else avsExistingTail name testMode createResult ch4
      | Option.none => avsExistingTail name testMode createResult ch4
    else
      let newChanges : PyDict :=
        [("old", PyVal.dict []),
         ("new", PyVal.dict
           [("name", PyVal.str name),
            ("virtual_machines", optPy virtual_machines),
            ("platform_update_domain_count", optIntPy pudc),
            ("platform_fault_domain_count", optIntPy pfdc),
            ("sku", skuPy),
            ("tags", optDictPy tags)])]
      if testMode then
        (mkRet name PyVal.none
          ("Availability set " ++ name ++ " would be created.") newChanges, [])
      else avsCreateCall name createResult newChanges

/-- `absent(name, resource_group, connection_auth)` (state lines 245-297). -/
def absent (name _resource_group : String) (connection_auth : PyVal)
    (testMode : Bool) (getResult : PyDict) (deleteResult : PyVal) :
    PyDict × List String :=
  if !connection_auth.isDict then
    (mkRet name (PyVal.bool false)
      "Connection information must be specified via connection_auth dictionary!" [], [])
  else
    let aset := getResult
    if hasKey aset "error" then
      (mkRet name (PyVal.bool true)
        ("Availability set " ++ name ++ " was not found.") [], [])
    else if testMode then
      (mkRet name PyVal.none
        ("Availability set " ++ name ++ " would be deleted.")
        [("old", PyVal.dict aset), ("new", PyVal.dict [])], [])
    else if pyTruthy deleteResult then
      (mkRet name (PyVal.bool true)
        ("Availability set " ++ name ++ " has been deleted.")
        [("old", PyVal.dict aset), ("new", PyVal.dict [])], ["delete"])
    else
      (mkRet name (PyVal.bool false)
        ("Failed to delete availability set " ++ name ++ "!") [], ["delete"])

/-!
Cloud driver `clouds/azurerm.py`.  `avail_images` (lines 443-519) lists
publishers, fans one worker (`_get_publisher_images`) per publisher out over
a thread pool, and merges the returned per-publisher dictionaries
(`pool.map_async` keeps input order, so the fan-in is a left fold of
dictionary updates).  Each worker's nested SDK listing is modelled by its
outcome: the offers/skus/versions tree on success, or the
`HttpResponseError` message on failure (the worker discards any partial data
and returns `{publisher: message}`).  `_get_node_info` (lines 566-607)
normalizes one node dictionary; the per-interface enrichment calls are
modelled by one outcome per interface, the loop aborting at the first error.
-/

/-- The offers → skus → versions tree a publisher worker traverses. -/
abbrev PubListing := List (String × List (String × List String))

/-- `_get_publisher_images(publisher)`: build the per-publisher image
dictionary keyed `publisher|offer|sku|version`; on `HttpResponseError`
discard the data and return `{publisher: message}`. -/
def getPublisherImages (publisher : String)
    (outcome : Except String PubListing) : PyDict :=
  match outcome with
  | Except.error m => [(publisher, PyVal.str m)]
  | Except.ok offers =>
    offers.foldl (fun acc0 offer =>
      offer.2.foldl (fun acc1 sku =>
        sku.2.foldl (fun acc2 version =>
          setKey acc2 (publisher ++ "|" ++ offer.1 ++ "|" ++ sku.1 ++ "|" ++ version)
            (PyVal.dict
              [("publisher", PyVal.str publisher), ("offer", PyVal.str offer.1),
               ("sku", PyVal.str sku.1), ("version", PyVal.str version)])) acc1) acc0) []

/-- The fan-in comprehension `{k: v for result in results.get() for k, v in
result.items()}`: merge the worker dictionaries in order. -/
def mergeDicts (ds : List PyDict) : PyDict :=
  ds.foldl dictUpdate []

/-- `avail_images()`: one worker per publisher, results merged. -/
def avail_images (pubs : List (String × Except String PubListing)) : PyDict :=
  mergeDicts (pubs.map (fun p => getPublisherImages p.1 p.2))

/-- Outcome of one iteration of the network-interface enrichment loop (the
`get_resource_by_id` and `_get_network_interface` calls): the fetched
interface dictionary plus its public and private IPs, or the exception. -/
abbrev IfaceOutcome := Except String (PyDict × List PyVal × List PyVal)

/-- The `for index, netiface in enumerate(netifaces)` loop of
`_get_node_info`: update each entry in place and extend the IP lists until
the first exception aborts the loop (everything accumulated so far is kept,
since the updates mutate the node). -/
def enrichLoop : List PyVal → List IfaceOutcome →
    List PyVal × List PyVal × List PyVal
  | entries, [] => (entries, [], [])
  | [], _ => ([], [], [])
  | entry :: rest, Except.error _ :: _ => (entry :: rest, [], [])
  | entry :: rest, Except.ok (niDict, pubs, privs) :: outs =>
    let tail := enrichLoop rest outs
    (PyVal.dict (dictUpdate entry.asDict niDict) :: tail.1,
     pubs ++ tail.2.1, privs ++ tail.2.2)

/-- The first `try` block computing `node["image"]`: the
`publisher|offer|sku|version` join over `storage_profile.image_reference`,
`None` when a lookup raises `KeyError`/`TypeError` (missing key, non-dict
container, or non-string field). -/
def tryImageReferenceJoin (node : PyDict) : Option String :=
  match lookup? node "storage_profile" with
  | some (PyVal.dict spd) =>
    match lookup? spd "image_reference" with
    | some (PyVal.dict ir) =>
      match lookup? ir "publisher", lookup? ir "offer",
          lookup? ir "sku", lookup? ir "version" with
      | some (PyVal.str p), some (PyVal.str o), some (PyVal.str s), some (PyVal.str v) =>
        some (p ++ "|" ++ o ++ "|" ++ s ++ "|" ++ v)
      | _, _, _, _ => Option.none
    | _ => Option.none
  | _ => Option.none

/-- The nested `try` block: `node["storage_profile"]["os_disk"]["image"]["uri"]`,
`None` when a lookup raises. -/
def tryOsDiskUri (node : PyDict) : Option PyVal :=
  match lookup? node "storage_profile" with
  | some (PyVal.dict spd) =>
    match lookup? spd "os_disk" with
    | some (PyVal.dict od) =>
      match lookup? od "image" with
      | some (PyVal.dict im) => lookup? im "uri"
      | _ => Option.none
    | _ => Option.none
  | _ => Option.none

/-- The final fallback
`node.get("storage_profile", {}).get("image_reference", {}).get("id")`. -/
def imageReferenceId (node : PyDict) : PyVal :=
  lookupD ((lookupD ((lookupD node "storage_profile" (PyVal.dict []))).asDict
    "image_reference" (PyVal.dict [])).asDict) "id" PyVal.none

/-- `node["image"]` as computed by `_get_node_info`'s try/except cascade. -/
def imageValue (node : PyDict) : PyVal :=
  match tryImageReferenceJoin node with
  | some s => PyVal.str s
  | Option.none =>
    match tryOsDiskUri node with
    | some v => v
    | Option.none => imageReferenceId node

/-- `_get_node_info(node, netapi_version)`: normalize one node dictionary
into `{node["name"]: node}` with `id`, `size`, `state`, empty IP lists, the
`image` cascade, and the (failure-swallowing) network-interface enrichment. -/
def getNodeInfo (node : PyDict) (ifaceOutcomes : List IfaceOutcome) : PyDict :=
  let n1 := setKey node "id" (lookupD node "vm_id" PyVal.none)
  let n2 := setKey n1 "size"
    (lookupD (lookupD n1 "hardware_profile" (PyVal.dict [])).asDict "vm_size" PyVal.none)
  let n3 := setKey n2 "state" (lookupD n2 "provisioning_state" PyVal.none)
  let n4 := setKey n3 "public_ips" (PyVal.list [])
  let n5 := setKey n4 "private_ips" (PyVal.list [])
  let n6 := setKey n5 "image" (imageValue n5)
  let nodeName := (lookupD node "name" PyVal.none).asStr
  match lookup? n6 "network_profile" with
  | some (PyVal.dict np) =>
    match lookup? np "network_interfaces" with
    | some (PyVal.list entries) =>
      let enriched := enrichLoop entries ifaceOutcomes
      let n7 := setKey n6 "network_profile"
        (PyVal.dict (setKey np "network_interfaces" (PyVal.list enriched.1)))
      let n8 := setKey n7 "public_ips" (PyVal.list enriched.2.1)
      let n9 := setKey n8 "private_ips" (PyVal.list enriched.2.2)
      [(nodeName, PyVal.dict n9)]
    | _ => [(nodeName, PyVal.dict n6)]
  | _ => [(nodeName, PyVal.dict n6)]

/-- A dictionary field holding a string, spec-side view. -/
def specStrField (d : PyDict) (k : String) : Option String :=
  match lookup? d k with
  | some (PyVal.str s) => some s
  | _ => Option.none

/-- A dictionary field holding a nested dictionary, spec-side view. -/
def specSubDict (d : PyDict) (k : String) : Option PyDict :=
  match lookup? d k with
  | some (PyVal.dict s) => some s
  | _ => Option.none

/-- Spec-side joined image string: `publisher|offer|sku|version` from
`storage_profile.image_reference`, when those fields exist. -/
def specImageJoined (node : PyDict) : Option PyVal := do
  let sp ← specSubDict node "storage_profile"
  let ir ← specSubDict sp "image_reference"
  let p ← specStrField ir "publisher"
  let o ← specStrField ir "offer"
  let s ← specStrField ir "sku"
  let v ← specStrField ir "version"
  pure (PyVal.str (p ++ "|" ++ o ++ "|" ++ s ++ "|" ++ v))

/-- Spec-side first fallback: `storage_profile.os_disk.image.uri`. -/
def specImageUri (node : PyDict) : Option PyVal := do
  let sp ← specSubDict node "storage_profile"
  let od ← specSubDict sp "os_disk"
  let im ← specSubDict od "image"
  lookup? im "uri"

/-- Spec-side second fallback: `storage_profile.image_reference.id`. -/
def specImageRefId (node : PyDict) : PyVal :=
  (((specSubDict node "storage_profile").bind
    (fun sp => specSubDict sp "image_reference")).bind
      (fun ir => lookup? ir "id")).getD PyVal.none

/-- Spec-side image of a node, following the claim's words: the string
`publisher|offer|sku|version` joined from `storage_profile.image_reference`
when those fields exist, falling back first to
`storage_profile.os_disk.image.uri` and then to
`storage_profile.image_reference.id`. -/
def specImage (node : PyDict) : PyVal :=
  (specImageJoined node <|> specImageUri node).getD (specImageRefId node)

/-- The public/private IPs the enrichment loop accumulates before its first
failing interface (spec-side view for the amended C6). -/
def ipsBeforeFailure (outs : List IfaceOutcome) : List PyVal × List PyVal :=
  match outs with
  | [] => ([], [])
  | Except.error _ :: _ => ([], [])
  | Except.ok (_, pubs, privs) :: rest =>
    let tail := ipsBeforeFailure rest
    (pubs ++ tail.1, privs ++ tail.2)

/-! Theorems. -/

theorem foldl_toList_eq_filterMap {α β : Type} (g : α → Option β) (l : List α)
    (init : List β) :
    l.foldl (fun acc a => acc ++ (g a).toList) init = init ++ l.filterMap g := by
  induction l generalizing init with
  | nil => simp
  | cons a rest ih =>
    simp only [List.foldl_cons, List.filterMap_cons]
    cases h : g a with
    | none => simp [h, ih]
    | some b => simp [h, ih]

theorem firstCharIs_excl (ty : String) {c d : Char}
    (h : firstCharIs ty c = true) (hcd : d ≠ c) : firstCharIs ty d = false := by
  unfold firstCharIs at h ⊢
  rw [beq_iff_eq] at h
  rw [h]
  exact beq_eq_false_iff_ne.mpr (Ne.symm hcd)

theorem firstCharUpper_false_of_is (ty : String) {c : Char}
    (h : firstCharIs ty c = true) (hc : c.isUpper = false) :
    firstCharUpper ty = false := by
  unfold firstCharIs at h
  unfold firstCharUpper
  rw [beq_iff_eq] at h
  rw [h]
  exact hc

theorem attrLoopBody_eq_specAttrValue (build : String → PyDict → PyVal)
    (kwargs : PyDict) (entry : String × String) :
    attrLoopBody build kwargs entry = specAttrValue build kwargs entry := by
  obtain ⟨attr, ty⟩ := entry
  simp only [attrLoopBody, specAttrValue, lookupD]
  cases h : lookup? kwargs attr with
  | none => simp
  | some v =>
    simp only [Option.getD_some]
    cases v with
    | none => simp
    | bool b =>
      by_cases hb : firstCharIs ty '{' <;>
        simp [hb, PyVal.isDict, PyVal.isList]
    | int n =>
      by_cases hb : firstCharIs ty '{' <;>
        simp [hb, PyVal.isDict, PyVal.isList]
    | str s =>
      by_cases hb : firstCharIs ty '{' <;>
        simp [hb, PyVal.isDict, PyVal.isList]
    | obj n flds =>
      by_cases hb : firstCharIs ty '{' <;>
        simp [hb, PyVal.isDict, PyVal.isList]
    | dict d =>
      by_cases hu : firstCharUpper ty
      · simp [hu, PyVal.isDict]
      · by_cases hb : firstCharIs ty '{' <;>
          simp [hu, hb, PyVal.isDict, PyVal.isList]
    | list l =>
      by_cases hl : firstCharIs ty '['
      · have hu : firstCharUpper ty = false :=
          firstCharUpper_false_of_is ty hl (by decide)
        have hb : firstCharIs ty '{' = false :=
          firstCharIs_excl ty hl (by decide)
        simp only [hu, hb, hl, PyVal.isDict, PyVal.isList, Bool.and_false,
          Bool.and_true, Bool.false_eq_true, if_false, if_true,
          Bool.false_and]
        simp only [PyVal.asList, Option.some.injEq, Prod.mk.injEq, true_and,
          PyVal.list.injEq]
        apply List.filterMap_congr
        intro item _
        by_cases h2u : secondCharUpper ty
        · cases item <;> simp [h2u, PyVal.isDict]
        · by_cases h2b : secondCharIs ty '{' <;>
            cases item <;> simp [h2u, h2b, PyVal.isDict]
      · by_cases hb : firstCharIs ty '{' <;>
          simp [hl, hb, PyVal.isDict, PyVal.isList]

/-- C1: `create_object_model` builds the constructor keyword set exactly as
the claim describes: iterating the model's attribute map, omitting attributes
absent from the kwargs or set to `None`, recursively building nested models
for uppercase (model) wire types with dict values, passing dicts through for
`{`-prefixed map types, handling `[`-prefixed list types element-wise
(recursively building dict elements of model element type, passing dict
elements through for map element types and scalar elements through
unchanged), and passing scalar-typed values through unchanged. -/
theorem create_object_model_follows_spec (env : AttrEnv) (fuel : Nat)
    (objectName : String) (kwargs : PyDict) :
    create_object_model env fuel objectName kwargs =
      specObjectModel env fuel objectName kwargs := by
  induction fuel generalizing objectName kwargs with
  | zero => rfl
  | succ fuel ih =>
    have hfun : create_object_model env fuel = specObjectModel env fuel := by
      funext n d
      exact ih n d
    simp only [create_object_model, specObjectModel]
    cases env objectName with
    | none => rfl
    | some attrMap =>
      simp only [PyVal.obj.injEq, true_and]
      rw [foldl_toList_eq_filterMap (attrLoopBody (create_object_model env fuel) kwargs)]
      simp only [List.nil_append]
      apply List.filterMap_congr
      intro entry _
      rw [attrLoopBody_eq_specAttrValue, hfun]

theorem any_not_eq_not_all {α : Type} (p : α → Bool) (l : List α) :
    (l.any fun x => !p x) = !l.all p := by
  induction l with
  | nil => rfl
  | cons a t ih => simp [List.any_cons, List.all_cons, ih, Bool.not_and]

theorem entryMismatch_eq_not_specKeyMatches (convert : List String)
    (remoteD : PyDict) (kv : String × PyVal) :
    entryMismatch convert remoteD kv = !specKeyMatches convert remoteD kv.1 kv.2 := by
  unfold entryMismatch specKeyMatches convertRemoteVal
  by_cases h : kv.1 ∈ convert <;> simp [h]

theorem mismatchAny_eq_not_specAllMatch (convert : List String)
    (locals remotes : List (PyVal × PyDict)) :
    mismatchAny convert locals remotes = !specAllMatch convert locals remotes := by
  unfold mismatchAny specAllMatch
  have h1 : ∀ pr : (PyVal × PyDict) × (PyVal × PyDict),
      pr.1.2.any (entryMismatch convert pr.2.2) =
        !pr.1.2.all (fun kv => specKeyMatches convert pr.2.2 kv.1 kv.2) := by
    intro pr
    have : entryMismatch convert pr.2.2 =
        fun kv => !(fun kv : String × PyVal =>
          specKeyMatches convert pr.2.2 kv.1 kv.2) kv := by
      funext kv
      exact entryMismatch_eq_not_specKeyMatches convert pr.2.2 kv
    rw [this]
    exact any_not_eq_not_all _ _
  have h2 : (fun pr : (PyVal × PyDict) × (PyVal × PyDict) =>
      pr.1.2.any (entryMismatch convert pr.2.2)) =
      fun pr => !(fun pr : (PyVal × PyDict) × (PyVal × PyDict) =>
        pr.1.2.all (fun kv => specKeyMatches convert pr.2.2 kv.1 kv.2)) pr := by
    funext pr
    exact h1 pr
  rw [h2]
  exact any_not_eq_not_all _ _

/-- C8: `compare_list_of_dicts` returns the empty mapping iff the lists have
equal length and, after sorting both by the `name` key, every key present in
each new dictionary compares equal to the corresponding old value (strings
case-insensitively, `convert_id_to_name` keys against the last `/`-segment of
the old value's `id`); it returns a mapping with only a `changes` key when the
lengths differ or some value differs, and a mapping with only a `comment` key
when `new` is not a list or (at equal lengths) the entries fail to sort as
named dictionaries (a non-dict entry or a missing `name` key). -/
theorem compare_list_of_dicts_characterization (old : List PyVal) (new : PyVal)
    (convert : List String) :
    (∀ newL locals remotes, new = PyVal.list newL →
      sortConfigs newL = Except.ok locals →
      sortConfigs old = Except.ok remotes →
      (compare_list_of_dicts old new convert = [] ↔
        (newL.length = old.length ∧ specAllMatch convert locals remotes = true))) ∧
    (new.isList = false →
      compare_list_of_dicts old new convert =
        [("comment", PyVal.str "must be provided as a list of dictionaries!")]) ∧
    (∀ newL e, new = PyVal.list newL → newL.length = old.length →
      (sortConfigs newL = Except.error e ∨
        ((∃ locals, sortConfigs newL = Except.ok locals) ∧
          sortConfigs old = Except.error e)) →
      compare_list_of_dicts old new convert = [("comment", sortErrComment e)]) ∧
    (∀ newL, new = PyVal.list newL →
      (newL.length ≠ old.length ∨
        (∃ locals remotes, sortConfigs newL = Except.ok locals ∧
          sortConfigs old = Except.ok remotes ∧
          specAllMatch convert locals remotes = false)) →
      keysOf (compare_list_of_dicts old new convert) = ["changes"]) := by
  refine ⟨?_, ?_, ?_, ?_⟩
  · intro newL locals remotes hnew hsortN hsortO
    subst hnew
    unfold compare_list_of_dicts
    by_cases hlen : newL.length = old.length
    · simp only [hlen, ne_eq, not_true_eq_false, if_false, hsortN, hsortO,
        mismatchAny_eq_not_specAllMatch]
      cases hm : specAllMatch convert locals remotes <;> simp [hm, hlen]
    · simp [hlen]
  · intro hnl
    cases new <;> simp_all [compare_list_of_dicts, PyVal.isList]
  · intro newL e hnew hlen herr
    subst hnew
    unfold compare_list_of_dicts
    simp only [hlen, ne_eq, not_true_eq_false, if_false]
    rcases herr with h | ⟨⟨locals, hok⟩, herr⟩
    · rw [h]
    · rw [hok, herr]
  · intro newL hnew hcase
    subst hnew
    unfold compare_list_of_dicts
    rcases hcase with hlen | ⟨locals, remotes, hsortN, hsortO, hmm⟩
    · simp [hlen, keysOf]
    · by_cases hlen : newL.length = old.length
      · simp only [hlen, ne_eq, not_true_eq_false, if_false, hsortN, hsortO,
          mismatchAny_eq_not_specAllMatch, hmm, Bool.not_false, if_true]
        simp [keysOf]
      · simp [hlen, keysOf]

/-- C8 witness: the characterization applied at the concrete pair
`old = new = [{"name": 1}]` — a singleton list with an integer name, which
Python sorts without making any comparison — where every key present in the
new dictionary matches the old value, so the result is empty. -/
theorem compare_list_of_dicts_characterization_witness :
    compare_list_of_dicts [PyVal.dict [("name", PyVal.int 1)]]
      (PyVal.list [PyVal.dict [("name", PyVal.int 1)]]) [] = [] := by
  have h := (compare_list_of_dicts_characterization
    [PyVal.dict [("name", PyVal.int 1)]]
    (PyVal.list [PyVal.dict [("name", PyVal.int 1)]]) []).1
    [PyVal.dict [("name", PyVal.int 1)]]
    [(PyVal.int 1, [("name", PyVal.int 1)])]
    [(PyVal.int 1, [("name", PyVal.int 1)])]
    rfl (by rfl) (by rfl)
  refine h.mpr ⟨rfl, ?_⟩
  simp [specAllMatch, specKeyMatches, lowerIfStr, lookupD, lookup?, pyBeq]

theorem pagedLoop_eq_append {Page : Type} (asDictF : Page → PyDict)
    (pages : List Page) (acc : List PyDict) :
    pagedLoop asDictF pages acc = acc ++ pages.map asDictF := by
  induction pages generalizing acc with
  | nil => simp [pagedLoop]
  | cons p rest ih => simp [pagedLoop, ih]

/-- C9: `paged_object_to_list` returns the `as_dict` image of every page in
iteration order: the result has one entry per yielded page, and its `i`-th
element is the dictionary form of the `i`-th page. -/
theorem paged_object_to_list_maps_pages {Page : Type} (asDictF : Page → PyDict)
    (pages : List Page) :
    (paged_object_to_list asDictF pages).length = pages.length ∧
    ∀ i : Fin pages.length,
      (paged_object_to_list asDictF pages).get ⟨i, by
        simp [paged_object_to_list, pagedLoop_eq_append]⟩ =
        asDictF (pages.get i) := by
  constructor
  · simp [paged_object_to_list, pagedLoop_eq_append]
  · intro i
    simp [paged_object_to_list, pagedLoop_eq_append]

/-- C4: the availability-set module's CRUD functions catch the SDK exceptions
their call sites raise — `get` catches `HttpResponseError` and its subclass
`ResourceNotFoundError`; `create_or_update` additionally catches
`SerializationError` — and return a mapping whose `error` key carries the
exception message (wrapped in the module's fixed template for serialization
failures) instead of re-raising; and `create_or_update` instead returns the
boolean `False` when the resource group's location cannot be determined. -/
theorem avset_error_handling :
    (∀ e : AzExc, e.isHttpResponseError = true →
      avset_get (Except.error e) = Except.ok [("error", PyVal.str e.msg)]) ∧
    (∀ (rgProps : PyDict) (e : AzExc), ∃ m : String,
      avset_create_or_update true rgProps (Except.ok ()) (Except.error e) =
        PyVal.dict [("error", PyVal.str m)] ∧
      (e.isHttpResponseError = true → m = e.msg)) ∧
    (∀ (rgProps : PyDict) (modelBuild : Except String Unit)
        (sdk : Except AzExc PyDict), hasKey rgProps "error" = true →
      avset_create_or_update false rgProps modelBuild sdk = PyVal.bool false) := by
  refine ⟨?_, ?_, ?_⟩
  · intro e he
    cases e <;> simp_all [avset_get, AzExc.isHttpResponseError, AzExc.msg]
  · intro rgProps e
    cases e with
    | http m =>
      exact ⟨m, by simp [avset_create_or_update], fun _ => rfl⟩
    | notFound m =>
      exact ⟨m, by simp [avset_create_or_update], fun _ => rfl⟩
    | serialization m =>
      refine ⟨"The object model could not be parsed. (" ++ m ++ ")",
        by simp [avset_create_or_update], fun h => ?_⟩
      simp [AzExc.isHttpResponseError] at h
  · intro rgProps modelBuild sdk h
    simp [avset_create_or_update, h]

/-- C4 witness: a `ResourceNotFoundError` from the SDK `get` call surfaces as
an error mapping, and `create_or_update` returns `False` when the resource
group lookup fails with no location in the kwargs. -/
theorem avset_error_handling_witness :
    avset_get (Except.error (AzExc.notFound "resource not found")) =
      Except.ok [("error", PyVal.str "resource not found")] ∧
    avset_create_or_update false [("error", PyVal.str "no such group")]
      (Except.ok ()) (Except.ok []) = PyVal.bool false := by
  constructor
  · exact avset_error_handling.1 (AzExc.notFound "resource not found") rfl
  · exact avset_error_handling.2.2 [("error", PyVal.str "no such group")]
      (Except.ok ()) (Except.ok []) rfl

/-- C3: when the `get` call reports an error (the resource does not exist),
`absent` returns result `True`, an empty changes mapping and a "was not
found" comment, and invokes no delete operation. -/
theorem absent_not_found (name rg : String) (conn : PyVal) (testMode : Bool)
    (getResult : PyDict) (deleteResult : PyVal)
    (hconn : conn.isDict = true) (herr : hasKey getResult "error" = true) :
    absent name rg conn testMode getResult deleteResult =
      (mkRet name (PyVal.bool true)
        ("Availability set " ++ name ++ " was not found.") [], []) := by
  unfold absent
  simp [hconn, herr]

/-- C3 witness: `absent` on a missing availability set with a valid
connection dictionary. -/
theorem absent_not_found_witness :
    absent "as1" "rg1" (PyVal.dict []) false
      [("error", PyVal.str "resource not found")] (PyVal.bool true) =
      (mkRet "as1" (PyVal.bool true) "Availability set as1 was not found." [], []) := by
  have h := absent_not_found "as1" "rg1" (PyVal.dict []) false
    [("error", PyVal.str "resource not found")] (PyVal.bool true) rfl rfl
  simpa using h

theorem avsCreateCall_ret_shape (name : String) (createResult changes : PyDict) :
    ∃ res com chg, (avsCreateCall name createResult changes).1 =
      mkRet name res com chg ∧
      (res = PyVal.none ∨ res = PyVal.bool true ∨ res = PyVal.bool false) := by
  unfold avsCreateCall
  by_cases h : hasKey createResult "error"
  · exact ⟨PyVal.bool false,
      "Failed to create availability set " ++ name ++ "! (" ++
        (lookupD createResult "error" PyVal.none).asStr ++ ")",
      changes, by simp [h], Or.inr (Or.inr rfl)⟩
  · exact ⟨PyVal.bool true, "Availability set " ++ name ++ " has been created.",
      changes, by simp [h], Or.inr (Or.inl rfl)⟩

theorem avsExistingTail_ret_shape (name : String) (testMode : Bool)
    (createResult changes : PyDict) :
    ∃ res com chg, (avsExistingTail name testMode createResult changes).1 =
      mkRet name res com chg ∧
      (res = PyVal.none ∨ res = PyVal.bool true ∨ res = PyVal.bool false) := by
  unfold avsExistingTail
  by_cases hc : changes.isEmpty
  · exact ⟨PyVal.bool true, "Availability set " ++ name ++ " is already present.",
      [], by simp [hc], Or.inr (Or.inl rfl)⟩
  · by_cases ht : testMode
    · exact ⟨PyVal.none, "Availability set " ++ name ++ " would be updated.",
        changes, by simp [hc, ht], Or.inl rfl⟩
    · obtain ⟨res, com, chg, hEq, hres⟩ := avsCreateCall_ret_shape name createResult changes
      exact ⟨res, com, chg, by simp [hc, ht, hEq], hres⟩

/-- C5: on every path — invalid `connection_auth`, no changes needed, test
mode, successful or failed create/update/delete — `present` and `absent`
return a mapping with exactly the four keys `name`, `result`, `comment` and
`changes` (in that order, as built by `mkRet`), where `name` equals the
`name` argument, `result` is `True`, `False` or `None`, `comment` is a
string and `changes` is a mapping. -/
theorem state_ret_shape (name rg : String) (tags : Option PyDict)
    (pudc pfdc : Option Int) (vms : Option PyVal) (sku : Option String)
    (conn : PyVal) (testMode : Bool) (getResult createResult : PyDict)
    (dd : PyDict → PyDict → PyDict) (deleteResult : PyVal) :
    (∃ res com chg,
      (present name rg tags pudc pfdc vms sku conn testMode getResult createResult dd).1 =
        mkRet name res com chg ∧
      (res = PyVal.none ∨ res = PyVal.bool true ∨ res = PyVal.bool false)) ∧
    (∃ res com chg,
      (absent name rg conn testMode getResult deleteResult).1 =
        mkRet name res com chg ∧
      (res = PyVal.none ∨ res = PyVal.bool true ∨ res = PyVal.bool false)) := by
  constructor
  · by_cases hc : conn.isDict
    · by_cases he : hasKey getResult "error"
      · by_cases ht : testMode
        · simp only [present, hc, he, ht]
          simp only [Bool.not_true, Bool.false_eq_true, if_false, if_true]
          exact ⟨_, _, _, rfl, Or.inl rfl⟩
        · simp only [present, hc, he, ht]
          simp only [Bool.not_true, Bool.false_eq_true, if_false, if_true]
          exact avsCreateCall_ret_shape name createResult _
      · cases vms with
        | none =>
          simp only [present, hc, he]
          simp only [Bool.not_true, Bool.not_false, Bool.false_eq_true, if_false,
            if_true]
          exact avsExistingTail_ret_shape name testMode createResult _
        | some vmv =>
          by_cases hvt : pyTruthy vmv
          · by_cases hvl : vmv.isList
            · simp only [present, hc, he, hvt, hvl]
              simp only [Bool.not_true, Bool.not_false, Bool.false_eq_true,
                Bool.true_eq_false, if_false, if_true]
              exact avsExistingTail_ret_shape name testMode createResult _
            · simp only [present, hc, he, hvt, hvl]
              simp only [Bool.not_true, Bool.not_false, Bool.false_eq_true,
                Bool.true_eq_false, if_false, if_true]
              exact ⟨_, _, _, rfl, Or.inr (Or.inr rfl)⟩
          · simp only [present, hc, he, hvt]
            simp only [Bool.not_true, Bool.not_false, Bool.false_eq_true, if_false,
              if_true]
            exact avsExistingTail_ret_shape name testMode createResult _
    · simp only [present, hc]
      simp only [Bool.not_false, if_true]
      exact ⟨_, _, _, rfl, Or.inr (Or.inr rfl)⟩
  · by_cases hc : conn.isDict
    · by_cases he : hasKey getResult "error"
      · simp only [absent, hc, he]
        simp only [Bool.not_true, Bool.false_eq_true, if_false, if_true]
        exact ⟨_, _, _, rfl, Or.inr (Or.inl rfl)⟩
      · by_cases ht : testMode
        · simp only [absent, hc, he, ht]
          simp only [Bool.not_true, Bool.false_eq_true, if_false, if_true]
          exact ⟨_, _, _, rfl, Or.inl rfl⟩
        · by_cases hd : pyTruthy deleteResult
          · simp only [absent, hc, he, ht, hd]
            simp only [Bool.not_true, Bool.false_eq_true, if_false, if_true]
            exact ⟨_, _, _, rfl, Or.inr (Or.inl rfl)⟩
          · simp only [absent, hc, he, ht, hd]
            simp only [Bool.not_true, Bool.false_eq_true, if_false, if_true]
            exact ⟨_, _, _, rfl, Or.inr (Or.inr rfl)⟩
    · simp only [absent, hc]
      simp only [Bool.not_false, if_true]
      exact ⟨_, _, _, rfl, Or.inr (Or.inr rfl)⟩

theorem avsExistingTail_test_outcomes (name : String) (createResult changes : PyDict) :
    avsExistingTail name true createResult changes =
      (mkRet name (PyVal.bool true)
        ("Availability set " ++ name ++ " is already present.") [], []) ∨
    avsExistingTail name true createResult changes =
      (mkRet name PyVal.none
        ("Availability set " ++ name ++ " would be updated.") changes, []) := by
  unfold avsExistingTail
  by_cases hc : changes.isEmpty
  · exact Or.inl (by simp [hc])
  · exact Or.inr (by simp [hc])

theorem avsExistingTail_test_calls (name : String) (createResult changes : PyDict) :
    (avsExistingTail name true createResult changes).2 = [] := by
  rcases avsExistingTail_test_outcomes name createResult changes with h | h <;>
    simp [h]

/-- C10: when the runtime `test` option is true neither state function ever
invokes a mutating execution-module operation, and every test-guarded path
returns early with result `None` and a would-be comment: with a valid
connection dictionary, `present` on a missing resource reports "would be
created"; on an existing resource it returns the harmless "already present"
or bad-parameter result, or reports "would be updated" with result `None`;
`absent` on an existing resource reports "would be deleted" with result
`None`. -/
theorem test_mode_never_mutates (name rg : String) (tags : Option PyDict)
    (pudc pfdc : Option Int) (vms : Option PyVal) (sku : Option String)
    (conn : PyVal) (getResult createResult : PyDict)
    (dd : PyDict → PyDict → PyDict) (deleteResult : PyVal) :
    (present name rg tags pudc pfdc vms sku conn true getResult createResult dd).2 = [] ∧
    (absent name rg conn true getResult deleteResult).2 = [] ∧
    (conn.isDict = true → hasKey getResult "error" = true →
      ∃ chg, present name rg tags pudc pfdc vms sku conn true getResult createResult dd =
        (mkRet name PyVal.none
          ("Availability set " ++ name ++ " would be created.") chg, [])) ∧
    (conn.isDict = true → hasKey getResult "error" = false →
      (present name rg tags pudc pfdc vms sku conn true getResult createResult dd).1 =
        mkRet name (PyVal.bool true)
          ("Availability set " ++ name ++ " is already present.") [] ∨
      (∃ chg, (present name rg tags pudc pfdc vms sku conn true getResult createResult dd).1 =
        mkRet name (PyVal.bool false)
          "Virtual machines must be supplied as a list!" chg) ∨
      (∃ chg, (present name rg tags pudc pfdc vms sku conn true getResult createResult dd).1 =
        mkRet name PyVal.none
          ("Availability set " ++ name ++ " would be updated.") chg)) ∧
    (conn.isDict = true → hasKey getResult "error" = false →
      absent name rg conn true getResult deleteResult =
        (mkRet name PyVal.none
          ("Availability set " ++ name ++ " would be deleted.")
          [("old", PyVal.dict getResult), ("new", PyVal.dict [])], [])) := by
  refine ⟨?_, ?_, ?_, ?_, ?_⟩
  · by_cases hc : conn.isDict
    · by_cases he : hasKey getResult "error"
      · simp [present, hc, he]
      · cases vms with
        | none =>
          simp only [present, hc, he]
          simp only [Bool.not_true, Bool.not_false, Bool.false_eq_true, if_false,
            if_true]
          exact avsExistingTail_test_calls name createResult _
        | some vmv =>
          by_cases hvt : pyTruthy vmv
          · by_cases hvl : vmv.isList
            · simp only [present, hc, he, hvt, hvl]
              simp only [Bool.not_true, Bool.not_false, Bool.false_eq_true,
                Bool.true_eq_false, if_false, if_true]
              exact avsExistingTail_test_calls name createResult _
            · simp [present, hc, he, hvt, hvl]
          · simp only [present, hc, he, hvt]
            simp only [Bool.not_true, Bool.not_false, Bool.false_eq_true, if_false,
              if_true]
            exact avsExistingTail_test_calls name createResult _
    · simp [present, hc]
  · by_cases hc : conn.isDict
    · by_cases he : hasKey getResult "error"
      · simp [absent, hc, he]
      · simp [absent, hc, he]
    · simp [absent, hc]
  · intro hc he
    simp only [present, hc, he]
    simp only [Bool.not_true, Bool.false_eq_true, if_false, if_true]
    exact ⟨_, rfl⟩
  · intro hc he
    have houtcome : ∀ changes : PyDict,
        (avsExistingTail name true createResult changes).1 =
          mkRet name (PyVal.bool true)
            ("Availability set " ++ name ++ " is already present.") [] ∨
        (∃ chg, (avsExistingTail name true createResult changes).1 =
          mkRet name PyVal.none
            ("Availability set " ++ name ++ " would be updated.") chg) := by
      intro changes
      rcases avsExistingTail_test_outcomes name createResult changes with h | h
      · exact Or.inl (by simp [h])
      · exact Or.inr ⟨changes, by simp [h]⟩
    cases vms with
    | none =>
      simp only [present, hc, he]
      simp only [Bool.not_true, Bool.not_false, Bool.false_eq_true, if_false,
        if_true]
      rcases houtcome _ with h | h
      · exact Or.inl h
      · exact Or.inr (Or.inr h)
    | some vmv =>
      by_cases hvt : pyTruthy vmv
      · by_cases hvl : vmv.isList
        · simp only [present, hc, he, hvt, hvl]
          simp only [Bool.not_true, Bool.not_false, Bool.false_eq_true,
            Bool.true_eq_false, if_false, if_true]
          rcases houtcome _ with h | h
          · exact Or.inl h
          · exact Or.inr (Or.inr h)
        · refine Or.inr (Or.inl ?_)
          simp only [present, hc, he, hvt, hvl]
          simp only [Bool.not_true, Bool.not_false, Bool.false_eq_true,
            Bool.true_eq_false, if_false, if_true]
          exact ⟨_, rfl⟩
      · simp only [present, hc, he, hvt]
        simp only [Bool.not_true, Bool.not_false, Bool.false_eq_true, if_false,
          if_true]
        rcases houtcome _ with h | h
        · exact Or.inl h
        · exact Or.inr (Or.inr h)
  · intro hc he
    simp [absent, hc, he]

/-- C10 witness: in test mode with valid credentials and a missing resource,
`present` invokes nothing and reports "would be created" with result `None`;
`absent` on an existing resource invokes nothing and reports "would be
deleted". -/
theorem test_mode_never_mutates_witness :
    (present "as1" "rg" Option.none Option.none Option.none Option.none
      Option.none (PyVal.dict []) true [("error", PyVal.str "x")] [] deepDiffModel).2 = [] ∧
    (∃ chg, present "as1" "rg" Option.none Option.none Option.none Option.none
      Option.none (PyVal.dict []) true [("error", PyVal.str "x")] [] deepDiffModel =
      (mkRet "as1" PyVal.none "Availability set as1 would be created." chg, [])) ∧
    absent "as1" "rg" (PyVal.dict []) true [("tags", PyVal.dict [])] (PyVal.bool true) =
      (mkRet "as1" PyVal.none "Availability set as1 would be deleted."
        [("old", PyVal.dict [("tags", PyVal.dict [])]), ("new", PyVal.dict [])], []) := by
  obtain ⟨h1, _, h3, _, _⟩ := test_mode_never_mutates "as1" "rg" Option.none
    Option.none Option.none Option.none Option.none (PyVal.dict [])
    [("error", PyVal.str "x")] [] deepDiffModel (PyVal.bool true)
  obtain ⟨_, _, _, _, h5⟩ := test_mode_never_mutates "as1" "rg" Option.none
    Option.none Option.none Option.none Option.none (PyVal.dict [])
    [("tags", PyVal.dict [])] [] deepDiffModel (PyVal.bool true)
  exact ⟨h1, h3 rfl rfl, h5 rfl rfl⟩

/-- C2: the code evaluated at the failing input — the remote availability set
matches every desired parameter (update domain count 5, fault domain count 3,
sku Aligned, and the single virtual machine `vm1`, whose remote entry's `id`
ends in `/vm1`) — yet the second `present` call records a `virtual_machines`
change and invokes `create_or_update` instead of reporting "already
present": the generator filter `if "id" in aset_vms` tests membership of the
string `"id"` in the whole list rather than in each VM dictionary, so the
remote name list always computes as empty. -/
theorem present_vm_matching_not_idempotent :
    present "as1" "rg" Option.none (some 5) (some 3)
      (some (PyVal.list [PyVal.str "vm1"])) (some "aligned") (PyVal.dict [])
      false
      [("platform_update_domain_count", PyVal.int 5),
       ("platform_fault_domain_count", PyVal.int 3),
       ("sku", PyVal.dict [("name", PyVal.str "Aligned")]),
       ("virtual_machines", PyVal.list [PyVal.dict [("id", PyVal.str
         "/subscriptions/s/resourceGroups/rg/providers/Microsoft.Compute/virtualMachines/vm1")]])]
      [("name", PyVal.str "as1")] deepDiffModel =
    (mkRet "as1" (PyVal.bool true) "Availability set as1 has been created."
      [("virtual_machines", PyVal.dict
        [("old", PyVal.list [PyVal.dict [("id", PyVal.str
           "/subscriptions/s/resourceGroups/rg/providers/Microsoft.Compute/virtualMachines/vm1")]]),
         ("new", PyVal.list [PyVal.str "vm1"])])],
     ["create_or_update"]) := by
  rfl

theorem lookup_setKey (d : PyDict) (k : String) (v : PyVal) (k' : String) :
    lookup? (setKey d k v) k' = if k' = k then some v else lookup? d k' := by
  induction d with
  | nil =>
    by_cases h : k' = k
    · simp [setKey, lookup?, h]
    · simp [setKey, lookup?, h, Ne.symm h]
  | cons kv rest ih =>
    obtain ⟨k1, v1⟩ := kv
    by_cases h1 : k1 = k <;> by_cases h2 : k1 = k' <;> by_cases h3 : k' = k <;>
      simp_all [setKey, lookup?]

theorem lookup_setKey_ne (d : PyDict) (k : String) (v : PyVal) (k' : String)
    (h : k' ≠ k) : lookup? (setKey d k v) k' = lookup? d k' := by
  simp [lookup_setKey, h]

theorem lookup_none_of_not_mem (d : PyDict) (k : String)
    (h : k ∉ keysOf d) : lookup? d k = Option.none := by
  induction d with
  | nil => rfl
  | cons kv rest ih =>
    simp only [keysOf, List.map_cons, List.mem_cons, not_or] at h
    simp only [lookup?]
    rw [if_neg (fun hh => h.1 hh.symm), ih (by simpa [keysOf] using h.2)]

theorem lookup_dictUpdate_none (d new : PyDict) (k : String)
    (h : lookup? new k = Option.none) :
    lookup? (dictUpdate d new) k = lookup? d k := by
  induction new generalizing d with
  | nil => rfl
  | cons kv rest ih =>
    obtain ⟨k1, v1⟩ := kv
    simp only [lookup?] at h
    by_cases h1 : k1 = k
    · simp [h1] at h
    · simp only [h1, if_false] at h
      show lookup? (dictUpdate (setKey d k1 v1) rest) k = lookup? d k
      rw [ih (setKey d k1 v1) h, lookup_setKey_ne d k1 v1 k (fun hh => h1 hh.symm)]

theorem lookup_dictUpdate_some (d new : PyDict) (k : String) (v : PyVal)
    (h : lookup? new k = some v) (hnd : (keysOf new).Nodup) :
    lookup? (dictUpdate d new) k = some v := by
  induction new generalizing d with
  | nil => simp [lookup?] at h
  | cons kv rest ih =>
    obtain ⟨k1, v1⟩ := kv
    simp only [keysOf, List.map_cons, List.nodup_cons] at hnd
    by_cases h1 : k1 = k
    · subst h1
      simp [lookup?] at h
      subst h
      have hrest : lookup? rest k1 = Option.none :=
        lookup_none_of_not_mem rest k1 (by simpa [keysOf] using hnd.1)
      show lookup? (dictUpdate (setKey d k1 v1) rest) k1 = some v1
      rw [lookup_dictUpdate_none (setKey d k1 v1) rest k1 hrest,
        lookup_setKey]
      simp
    · simp only [lookup?] at h
      rw [if_neg h1] at h
      show lookup? (dictUpdate (setKey d k1 v1) rest) k = some v
      exact ih (setKey d k1 v1) h (by simpa [keysOf] using hnd.2)

theorem mem_keys_setKey (d : PyDict) (k : String) (v : PyVal) (a : String) :
    a ∈ keysOf (setKey d k v) ↔ a ∈ keysOf d ∨ a = k := by
  induction d with
  | nil => simp [setKey, keysOf]
  | cons kv rest ih =>
    obtain ⟨k1, v1⟩ := kv
    by_cases h1 : k1 = k
    · simp_all [setKey, keysOf]
    · simp_all [setKey, keysOf]
      tauto

theorem nodup_keys_setKey (d : PyDict) (k : String) (v : PyVal)
    (h : (keysOf d).Nodup) : (keysOf (setKey d k v)).Nodup := by
  induction d with
  | nil => simp [setKey, keysOf]
  | cons kv rest ih =>
    obtain ⟨k1, v1⟩ := kv
    simp only [keysOf, List.map_cons, List.nodup_cons] at h
    by_cases h1 : k1 = k
    · subst h1
      have hs : setKey ((k1, v1) :: rest) k1 v = (k1, v) :: rest := by
        simp [setKey]
      rw [hs]
      simp only [keysOf, List.map_cons, List.nodup_cons]
      exact ⟨h.1, h.2⟩
    · have hs : setKey ((k1, v1) :: rest) k v = (k1, v1) :: setKey rest k v := by
        simp [setKey, h1]
      rw [hs]
      simp only [keysOf, List.map_cons, List.nodup_cons]
      refine ⟨?_, by simpa [keysOf] using ih (by simpa [keysOf] using h.2)⟩
      intro hmem
      rcases (mem_keys_setKey rest k v k1).mp (by simpa [keysOf] using hmem) with
        hin | heq
      · exact absurd hin (by simpa [keysOf] using h.1)
      · exact h1 heq

theorem nodup_foldl_pres {α : Type} (step : PyDict → α → PyDict)
    (hstep : ∀ acc x, (keysOf acc).Nodup → (keysOf (step acc x)).Nodup)
    (l : List α) (acc : PyDict) (h : (keysOf acc).Nodup) :
    (keysOf (l.foldl step acc)).Nodup := by
  induction l generalizing acc with
  | nil => exact h
  | cons x rest ih => exact ih (step acc x) (hstep acc x h)

theorem getPublisherImages_nodup_keys (p : String)
    (o : Except String PubListing) :
    (keysOf (getPublisherImages p o)).Nodup := by
  cases o with
  | error m => simp [getPublisherImages, keysOf]
  | ok offers =>
    unfold getPublisherImages
    refine nodup_foldl_pres _ ?_ offers [] (by simp [keysOf])
    intro acc offer hacc
    refine nodup_foldl_pres _ ?_ offer.2 acc hacc
    intro acc1 sku hacc1
    refine nodup_foldl_pres _ ?_ sku.2 acc1 hacc1
    intro acc2 version hacc2
    exact nodup_keys_setKey _ _ _ hacc2

theorem lookup_foldl_update_none (ds : List PyDict) (acc : PyDict) (k : String)
    (h : ∀ e ∈ ds, lookup? e k = Option.none) :
    lookup? (ds.foldl dictUpdate acc) k = lookup? acc k := by
  induction ds generalizing acc with
  | nil => rfl
  | cons d rest ih =>
    simp only [List.foldl_cons]
    rw [ih (dictUpdate acc d) (fun e he => h e (List.mem_cons_of_mem d he)),
      lookup_dictUpdate_none acc d k (h d (List.mem_cons_self d rest))]

theorem lookup_mergeDicts_middle (ds1 : List PyDict) (d : PyDict)
    (ds2 : List PyDict) (k : String) (v : PyVal)
    (hv : lookup? d k = some v) (hnd : (keysOf d).Nodup)
    (h2 : ∀ e ∈ ds2, lookup? e k = Option.none) :
    lookup? (mergeDicts (ds1 ++ d :: ds2)) k = some v := by
  unfold mergeDicts
  rw [List.foldl_append, List.foldl_cons,
    lookup_foldl_update_none ds2 _ k h2,
    lookup_dictUpdate_some _ d k v hv hnd]

theorem enrichLoop_ips (entries : List PyVal) (outs : List IfaceOutcome)
    (h : entries.length = outs.length) :
    (enrichLoop entries outs).2 = ipsBeforeFailure outs := by
  induction entries generalizing outs with
  | nil =>
    cases outs with
    | nil => rfl
    | cons o os => simp at h
  | cons e rest ih =>
    cases outs with
    | nil => simp at h
    | cons o os =>
      cases o with
      | error m => rfl
      | ok tri =>
        obtain ⟨niD, pubs, privs⟩ := tri
        simp only [enrichLoop, ipsBeforeFailure]
        rw [ih os (by simpa using h)]

theorem specImageJoined_eq (node : PyDict) :
    specImageJoined node = (tryImageReferenceJoin node).map PyVal.str := by
  unfold specImageJoined tryImageReferenceJoin specSubDict specStrField
  cases h1 : lookup? node "storage_profile" with
  | none => rfl
  | some sp =>
    cases sp <;> try rfl
    case dict spd =>
    simp only [Option.bind_eq_bind, Option.some_bind]
    cases h2 : lookup? spd "image_reference" with
    | none => rfl
    | some ir =>
      cases ir <;> try rfl
      case dict ird =>
      simp only [Option.bind_eq_bind, Option.some_bind]
      cases hp : lookup? ird "publisher" with
      | none => rfl
      | some pv =>
        cases pv <;> try rfl
        case str p =>
        simp only [Option.bind_eq_bind, Option.some_bind]
        cases ho : lookup? ird "offer" with
        | none => rfl
        | some ov =>
          cases ov <;> try rfl
          case str o =>
          simp only [Option.bind_eq_bind, Option.some_bind]
          cases hs : lookup? ird "sku" with
          | none => rfl
          | some sv =>
            cases sv <;> try rfl
            case str s =>
            simp only [Option.bind_eq_bind, Option.some_bind]
            cases hv : lookup? ird "version" with
            | none => rfl
            | some vv => cases vv <;> rfl

theorem specImageUri_eq (node : PyDict) :
    specImageUri node = tryOsDiskUri node := by
  unfold specImageUri tryOsDiskUri specSubDict
  cases h1 : lookup? node "storage_profile" with
  | none => rfl
  | some sp =>
    cases sp <;> try rfl
    case dict spd =>
    simp only [Option.bind_eq_bind, Option.some_bind]
    cases h2 : lookup? spd "os_disk" with
    | none => rfl
    | some od =>
      cases od <;> try rfl
      case dict odd =>
      simp only [Option.bind_eq_bind, Option.some_bind]
      cases h3 : lookup? odd "image" with
      | none => rfl
      | some im => cases im <;> rfl

theorem specImageRefId_eq (node : PyDict) :
    specImageRefId node = imageReferenceId node := by
  unfold specImageRefId imageReferenceId specSubDict lookupD
  cases h1 : lookup? node "storage_profile" with
  | none => rfl
  | some sp =>
    cases sp <;> try rfl
    case dict spd =>
    simp only [Option.some_bind']
    cases h2 : lookup? spd "image_reference" with
    | none => simp [h2, PyVal.asDict, lookup?]
    | some ir => cases ir <;> simp [h2, PyVal.asDict, lookup?]

theorem imageValue_eq_specImage (node : PyDict) :
    imageValue node = specImage node := by
  unfold imageValue specImage
  rw [specImageJoined_eq, specImageUri_eq, specImageRefId_eq]
  cases tryImageReferenceJoin node with
  | none =>
    simp only [Option.map_none', Option.none_orElse]
    cases tryOsDiskUri node with
    | none => simp
    | some v => simp
  | some s => simp

theorem imageValue_congr (d1 d2 : PyDict)
    (h : lookup? d1 "storage_profile" = lookup? d2 "storage_profile") :
    imageValue d1 = imageValue d2 := by
  unfold imageValue tryImageReferenceJoin tryOsDiskUri imageReferenceId lookupD
  rw [h]

/-- C7: for a node carrying `vm_id`, `hardware_profile.vm_size` and
`provisioning_state`, `_get_node_info` returns a single-entry mapping from
the node's name to the node augmented so that `id` is `vm_id`, `size` is
`hardware_profile.vm_size`, `state` is `provisioning_state`, and `image` is
the `publisher|offer|sku|version` join from `storage_profile.image_reference`
when those fields exist, with fallback first to
`storage_profile.os_disk.image.uri` and then to
`storage_profile.image_reference.id` (the spec-side `specImage`). -/
theorem getNodeInfo_normalizes (node : PyDict) (outs : List IfaceOutcome)
    (nm : String) (vid sz st : PyVal) (hp : PyDict)
    (hnm : lookup? node "name" = some (PyVal.str nm))
    (hvid : lookup? node "vm_id" = some vid)
    (hhp : lookup? node "hardware_profile" = some (PyVal.dict hp))
    (hsz : lookup? hp "vm_size" = some sz)
    (hst : lookup? node "provisioning_state" = some st) :
    ∃ nd, getNodeInfo node outs = [(nm, PyVal.dict nd)] ∧
      lookup? nd "id" = some vid ∧
      lookup? nd "size" = some sz ∧
      lookup? nd "state" = some st ∧
      lookup? nd "image" = some (specImage node) := by
  have himg : ∀ d1 : PyDict,
      lookup? d1 "storage_profile" = lookup? node "storage_profile" →
      imageValue d1 = specImage node :=
    fun d1 h => (imageValue_congr d1 node h).trans (imageValue_eq_specImage node)
  simp only [getNodeInfo]
  rw [himg _ (by simp [lookup_setKey, lookupD, hvid, hhp, hsz, hst, PyVal.asDict])]
  simp only [lookupD, lookup_setKey, hvid, hhp, hsz, hst, hnm, Option.getD_some,
    PyVal.asDict, PyVal.asStr]
  simp only [String.reduceEq, if_false, reduceIte]
  cases hnp : lookup? node "network_profile" with
  | none =>
    exact ⟨_, rfl, by simp [lookup_setKey, lookupD, hvid, hhp, hsz, hst, PyVal.asDict], by simp [lookup_setKey, lookupD, hvid, hhp, hsz, hst, PyVal.asDict],
      by simp [lookup_setKey, lookupD, hvid, hhp, hsz, hst, PyVal.asDict], by simp [lookup_setKey, lookupD, hvid, hhp, hsz, hst, PyVal.asDict]⟩
  | some npv =>
    cases npv <;>
      try exact ⟨_, rfl, by simp [lookup_setKey, lookupD, hvid, hhp, hsz, hst, PyVal.asDict], by simp [lookup_setKey, lookupD, hvid, hhp, hsz, hst, PyVal.asDict],
        by simp [lookup_setKey, lookupD, hvid, hhp, hsz, hst, PyVal.asDict], by simp [lookup_setKey, lookupD, hvid, hhp, hsz, hst, PyVal.asDict]⟩
    case dict np =>
    dsimp only
    cases hni : lookup? np "network_interfaces" with
    | none =>
      exact ⟨_, rfl, by simp [lookup_setKey, lookupD, hvid, hhp, hsz, hst, PyVal.asDict], by simp [lookup_setKey, lookupD, hvid, hhp, hsz, hst, PyVal.asDict],
        by simp [lookup_setKey, lookupD, hvid, hhp, hsz, hst, PyVal.asDict], by simp [lookup_setKey, lookupD, hvid, hhp, hsz, hst, PyVal.asDict]⟩
    | some niv =>
      cases niv <;>
        try exact ⟨_, rfl, by simp [lookup_setKey, lookupD, hvid, hhp, hsz, hst, PyVal.asDict], by simp [lookup_setKey, lookupD, hvid, hhp, hsz, hst, PyVal.asDict],
          by simp [lookup_setKey, lookupD, hvid, hhp, hsz, hst, PyVal.asDict], by simp [lookup_setKey, lookupD, hvid, hhp, hsz, hst, PyVal.asDict]⟩
/-- C7 witness: a concrete node with a full image reference, no network
interfaces to enrich. -/
theorem getNodeInfo_normalizes_witness :
    ∃ nd, getNodeInfo
      [("name", PyVal.str "vm1"), ("vm_id", PyVal.str "vmid-1"),
       ("hardware_profile", PyVal.dict [("vm_size", PyVal.str "Standard_A1")]),
       ("provisioning_state", PyVal.str "Succeeded"),
       ("storage_profile", PyVal.dict [("image_reference", PyVal.dict
         [("publisher", PyVal.str "Canonical"), ("offer", PyVal.str "Ubuntu"),
          ("sku", PyVal.str "22"), ("version", PyVal.str "1")])])] [] =
      [("vm1", PyVal.dict nd)] ∧
      lookup? nd "id" = some (PyVal.str "vmid-1") ∧
      lookup? nd "size" = some (PyVal.str "Standard_A1") ∧
      lookup? nd "state" = some (PyVal.str "Succeeded") ∧
      lookup? nd "image" = some (PyVal.str "Canonical|Ubuntu|22|1") := by
  obtain ⟨nd, h, h1, h2, h3, h4⟩ := getNodeInfo_normalizes
    [("name", PyVal.str "vm1"), ("vm_id", PyVal.str "vmid-1"),
     ("hardware_profile", PyVal.dict [("vm_size", PyVal.str "Standard_A1")]),
     ("provisioning_state", PyVal.str "Succeeded"),
     ("storage_profile", PyVal.dict [("image_reference", PyVal.dict
       [("publisher", PyVal.str "Canonical"), ("offer", PyVal.str "Ubuntu"),
        ("sku", PyVal.str "22"), ("version", PyVal.str "1")])])] []
    "vm1" (PyVal.str "vmid-1") (PyVal.str "Standard_A1")
    (PyVal.str "Succeeded") [("vm_size", PyVal.str "Standard_A1")]
    rfl rfl rfl rfl rfl
  refine ⟨nd, h, h1, h2, h3, ?_⟩
  rw [h4]
  rfl

/-- C6 counterexample: the claim says an exception during per-node
network-interface enrichment leaves that node with empty `public_ips` and
`private_ips`; here the first interface is enriched before the second raises,
and the node keeps the first interface's IPs (the exception is still
swallowed — the listing returns normally). -/
theorem node_partial_ips_counterexample :
    ∃ nd, getNodeInfo
      [("name", PyVal.str "vm1"), ("vm_id", PyVal.str "id1"),
       ("hardware_profile", PyVal.dict [("vm_size", PyVal.str "A1")]),
       ("provisioning_state", PyVal.str "Succeeded"),
       ("network_profile", PyVal.dict [("network_interfaces", PyVal.list
         [PyVal.dict [("id", PyVal.str "nic1")],
          PyVal.dict [("id", PyVal.str "nic2")]])])]
      [Except.ok ([], [PyVal.str "1.2.3.4"], [PyVal.str "10.0.0.1"]),
       Except.error "nic lookup failed"] =
      [("vm1", PyVal.dict nd)] ∧
      lookup? nd "public_ips" = some (PyVal.list [PyVal.str "1.2.3.4"]) ∧
      lookup? nd "private_ips" = some (PyVal.list [PyVal.str "10.0.0.1"]) ∧
      PyVal.list [PyVal.str "1.2.3.4"] ≠ PyVal.list [] := by
  refine ⟨_, rfl, rfl, rfl, by simp⟩

/-- C6 (amended): failures in the fan-out workers are swallowed and surfaced
as partial or empty results: a per-publisher worker never raises on
`HttpResponseError` — it returns the singleton `{publisher: message}` — and
the merged `avail_images` result retains every worker binding not overwritten
by a later worker, so the other publishers' results are still returned; and
an exception during per-node network-interface enrichment in `_get_node_info`
is swallowed, leaving the node with the public/private IPs accumulated before
the failing interface (empty when the failure precedes any interface) rather
than failing the listing. -/
theorem fanout_failures_partial_results :
    (∀ (publisher m : String),
      getPublisherImages publisher (Except.error m) = [(publisher, PyVal.str m)]) ∧
    (∀ (ps1 ps2 : List (String × Except String PubListing))
        (entry : String × Except String PubListing) (k : String) (v : PyVal),
      lookup? (getPublisherImages entry.1 entry.2) k = some v →
      (∀ q ∈ ps2, lookup? (getPublisherImages q.1 q.2) k = Option.none) →
      lookup? (avail_images (ps1 ++ entry :: ps2)) k = some v) ∧
    (∀ (node np : PyDict) (entries : List PyVal) (outs : List IfaceOutcome),
      lookup? node "network_profile" = some (PyVal.dict np) →
      lookup? np "network_interfaces" = some (PyVal.list entries) →
      entries.length = outs.length →
      ∃ nd, getNodeInfo node outs =
        [((lookupD node "name" PyVal.none).asStr, PyVal.dict nd)] ∧
        lookup? nd "public_ips" = some (PyVal.list (ipsBeforeFailure outs).1) ∧
        lookup? nd "private_ips" = some (PyVal.list (ipsBeforeFailure outs).2)) := by
  refine ⟨fun publisher m => rfl, ?_, ?_⟩
  · intro ps1 ps2 entry k v hv h2
    unfold avail_images
    rw [List.map_append, List.map_cons]
    exact lookup_mergeDicts_middle _ _ _ k v hv
      (getPublisherImages_nodup_keys entry.1 entry.2)
      (fun e he => by
        obtain ⟨q, hq, rfl⟩ := List.mem_map.mp he
        exact h2 q hq)
  · intro node np entries outs hnp hni hlen
    have hips := enrichLoop_ips entries outs hlen
    simp only [getNodeInfo]
    simp only [lookupD, lookup_setKey]
    simp only [String.reduceEq, if_false, reduceIte]
    simp only [hnp]
    simp only [hni]
    rw [hips]
    exact ⟨_, rfl, by simp [lookup_setKey], by simp [lookup_setKey]⟩

/-- C6 witness: with one healthy publisher and one failing publisher, the
failing one surfaces as its error message and the healthy one's image entry
survives; a node whose single interface lookup fails ends with empty IPs. -/
theorem fanout_failures_partial_results_witness :
    lookup? (avail_images
      [("other", Except.ok [("off", [("sk", ["1"])])]),
       ("bad", Except.error "boom")]) "bad" = some (PyVal.str "boom") ∧
    lookup? (avail_images
      [("other", Except.ok [("off", [("sk", ["1"])])]),
       ("bad", Except.error "boom")]) "other|off|sk|1" =
      some (PyVal.dict
        [("publisher", PyVal.str "other"), ("offer", PyVal.str "off"),
         ("sku", PyVal.str "sk"), ("version", PyVal.str "1")]) ∧
    (∃ nd, getNodeInfo
      [("name", PyVal.str "vm1"),
       ("network_profile", PyVal.dict [("network_interfaces", PyVal.list
         [PyVal.dict [("id", PyVal.str "nic1")]])])]
      [Except.error "nic lookup failed"] = [("vm1", PyVal.dict nd)] ∧
      lookup? nd "public_ips" = some (PyVal.list []) ∧
      lookup? nd "private_ips" = some (PyVal.list [])) := by
  obtain ⟨h1, h2, h3⟩ := fanout_failures_partial_results
  refine ⟨?_, ?_, ?_⟩
  · exact h2 [("other", Except.ok [("off", [("sk", ["1"])])])] []
      ("bad", Except.error "boom") "bad" (PyVal.str "boom") rfl
      (fun q hq => absurd hq (by simp))
  · exact h2 [] [("bad", Except.error "boom")]
      ("other", Except.ok [("off", [("sk", ["1"])])]) "other|off|sk|1"
      (PyVal.dict
        [("publisher", PyVal.str "other"), ("offer", PyVal.str "off"),
         ("sku", PyVal.str "sk"), ("version", PyVal.str "1")]) rfl
      (fun q hq => by
        rw [List.mem_singleton.mp hq]
        rfl)
  · exact h3
      [("name", PyVal.str "vm1"),
       ("network_profile", PyVal.dict [("network_interfaces", PyVal.list
         [PyVal.dict [("id", PyVal.str "nic1")]])])]
      [("network_interfaces", PyVal.list [PyVal.dict [("id", PyVal.str "nic1")]])]
      [PyVal.dict [("id", PyVal.str "nic1")]]
      [Except.error "nic lookup failed"] rfl rfl rfl
